import Mathlib

/-!
Shallow embedding of the pool (8-ball) referee server `Szerver.py`.

The server keeps, per room, a game state: a ball table (ball number to
position/alive), the turn holder, per-player group assignment, ball-in-hand
flags, shot counters, a winner and a status message.  The referee function
`evaluate_shot` judges a client-reported shot; `valid_cue_place` and the
`place_cue` handler govern ball-in-hand placement; `cleanup` expires invites;
`handle_invite_answer` resolves them; `ws_main` dispatches inbound messages.

Python dictionaries are modelled as association lists (unique keys), floats
as rationals (client-reported coordinates and timestamps are finite
decimals), Python `None` as `Option.none`, and a Python runtime exception as
an `Option.none` result of the evaluating function.
-/

namespace PoolServer

abbrev PlayerId := String

inductive Group where
  | SOLID
  | STRIPE
deriving DecidableEq, Repr

/-- Source: `SOLIDS = set(range(1,8))`. -/
def SOLIDS : List Int := [1, 2, 3, 4, 5, 6, 7]

/-- Source: `STRIPES = set(range(9,16))`. -/
def STRIPES : List Int := [9, 10, 11, 12, 13, 14, 15]

/-- One entry of the ball table: `{x, y, alive}`. -/
structure Ball where
  x : Rat
  y : Rat
  alive : Bool
deriving DecidableEq, Repr

/-- The ball table `balls`: a Python dict from ball number to entry,
modelled as an association list with unique keys.  (The source keys the
dict by the decimal string of the ball number; we key by the number
itself, which is what all lookups parse it into.) -/
abbrev BallTable := List (Int × Ball)

/-- Python `k in balls` on the ball-table dict. -/
def containsKey (k : Int) (t : BallTable) : Bool :=
  t.any (fun kb => kb.1 == k)

/-- Python `balls[k]` as a partial lookup. -/
def lookupBall (k : Int) : BallTable → Option Ball
  | [] => none
  | kb :: t => if kb.1 == k then some kb.2 else lookupBall k t

/-- Python `balls[k]["alive"] = True` for a key that is present
(association-list update of the `alive` field). -/
def setAlive (k : Int) (t : BallTable) : BallTable :=
  t.map (fun kb => if kb.1 == k then (kb.1, { kb.2 with alive := true }) else kb)

/-- Python `balls[k] = b` dict assignment: overwrite if present, else add. -/
def dictInsert (k : Int) (b : Ball) (t : BallTable) : BallTable :=
  if containsKey k t then
    t.map (fun kb => if kb.1 == k then (k, b) else kb)
  else
    t ++ [(k, b)]

/-- Geometry constants of the table (`TABLE`, `RADIUS` in the source). -/
def LW : Rat := 1280
def LH : Rat := 720
def MARGIN : Rat := 40
def CUSHION : Rat := 34
def INNER_W : Rat := LW - 2 * (MARGIN + CUSHION)
def INNER_H : Rat := LH - 2 * (MARGIN + CUSHION)
def TABLE_X : Rat := MARGIN + CUSHION
def TABLE_Y : Rat := MARGIN + CUSHION
def RADIUS : Rat := 14

/-- One room's game state (the `room` dict fields touched by the referee).
`names`, `groups`, `ball_in_hand` and `shots` are dicts keyed by player id,
modelled as total functions (the dicts always carry exactly the two
players of the room). -/
structure Room where
  players : PlayerId × PlayerId
  names : PlayerId → String
  balls : BallTable
  turn : Option PlayerId
  groups : PlayerId → Option Group
  ball_in_hand : PlayerId → Bool
  winner : Option PlayerId
  shots : PlayerId → Nat
  msg : String

/-- A client-reported shot:
`{first_hit: int|null, any_rail: bool, potted: [ints], balls: {...}}`. -/
structure Shot where
  first_hit : Option Int
  any_rail : Bool
  potted : List Int
  balls : BallTable
deriving DecidableEq, Repr

/-- Source: `opponent = room["players"][1] if room["players"][0]==shooter
else room["players"][0]`. -/
def opponentOf (room : Room) (shooter : PlayerId) : PlayerId :=
  if room.players.1 = shooter then room.players.2 else room.players.1

/-- Source: `balls = shot.get("balls") or room["balls"]` — an empty reported
table is falsy in Python, so it falls back to the room's current table. -/
def reportedBalls (room : Room) (shot : Shot) : BallTable :=
  if shot.balls.isEmpty then room.balls else shot.balls

/-- The foul reasons accumulated by lines 149-172 of the source, in order:
scratch, first-contact, no-progress.  `g` is the shooter's group entry at
the time of the shot. -/
def shot_foul_reasons (g : Option Group) (shot : Shot) : List String :=
  (if shot.potted.contains 0 then ["Scratch (fehér beesett)"] else []) ++
  (match shot.first_hit with
   | none => ["Nem ért labdát"]
   | some n =>
     match g with
     | some Group.SOLID =>
       if STRIPES.contains n || n == 8 then ["Első érintés nem saját (teli kellene)"] else []
     | some Group.STRIPE =>
       if SOLIDS.contains n || n == 8 then ["Első érintés nem saját (csíkos kellene)"] else []
     | none =>
       if n == 8 then ["Első érintés 8-as kiosztás előtt"] else []) ++
  (if shot.potted.isEmpty && !shot.any_rail then ["Nincs zsebelés és falérintés sem"] else [])

/-- The `foul` flag of `evaluate_shot`: set exactly when some reason was
recorded. -/
def shot_foul (g : Option Group) (shot : Shot) : Bool :=
  !(shot_foul_reasons g shot).isEmpty

/-- The illegal-first-contact component of the foul check (lines 156-167). -/
def first_hit_foul (g : Option Group) (fh : Option Int) : Bool :=
  match fh with
  | none => true
  | some n =>
    match g with
    | some Group.SOLID => STRIPES.contains n || n == 8
    | some Group.STRIPE => SOLIDS.contains n || n == 8
    | none => n == 8

/-- The ball numbers of a group (`SOLIDS if myg=="SOLID" else STRIPES`). -/
def groupBalls : Group → List Int
  | Group.SOLID => SOLIDS
  | Group.STRIPE => STRIPES

/-- Truth of `left = my_need & alive_nums` being nonempty: some ball of
group `g` is still alive in table `t`. -/
def group_alive_left (g : Group) (t : BallTable) : Bool :=
  t.any (fun kb => kb.2.alive && (groupBalls g).contains kb.1)

/-- Lines 195-231 of `evaluate_shot`: group assignment followed by turn
resolution and ball-in-hand, for a shot that did not pot the 8-ball.  The
ball-table replacement (line 233) stays in `evaluate_shot`. -/
def resolve_shot_rest (room : Room) (shooter opponent : PlayerId) (shot : Shot) : Room :=
  let potted := shot.potted
  let foul := shot_foul (room.groups shooter) shot
  -- group assignment (lines 195-210)
  let potted_non8 := potted.filter (fun n => n != 0 && n != 8)
  let potted_solid := potted_non8.filter (fun n => SOLIDS.contains n)
  let potted_stripe := potted_non8.filter (fun n => STRIPES.contains n)
  let room1 :=
    if (room.groups shooter).isNone && (room.groups opponent).isNone then
      if !potted_solid.isEmpty && potted_stripe.isEmpty then
        { room with
          groups := fun p =>
            if p = opponent then some Group.STRIPE
            else if p = shooter then some Group.SOLID
            else room.groups p
          msg := "Csoport kiosztás: " ++ room.names shooter ++ "=Teli, "
                   ++ room.names opponent ++ "=Csíkos." }
      else if !potted_stripe.isEmpty && potted_solid.isEmpty then
        { room with
          groups := fun p =>
            if p = opponent then some Group.SOLID
            else if p = shooter then some Group.STRIPE
            else room.groups p
          msg := "Csoport kiosztás: " ++ room.names shooter ++ "=Csíkos, "
                   ++ room.names opponent ++ "=Teli." }
      else if !potted_non8.isEmpty then
        { room with msg := "Mindkét típus esett kiosztás előtt → még nincs kiosztás." }
      else
        { room with msg := "" }
    else room
  -- turn resolution / ball-in-hand (lines 212-231)
  if foul then
    { room1 with
      ball_in_hand := fun p => if p = opponent then true else room1.ball_in_hand p
      turn := some opponent
      msg := "FOUL: " ++ String.intercalate "; " (shot_foul_reasons (room.groups shooter) shot)
               ++ " — " ++ room.names opponent ++ " jön (ball-in-hand)." }
  else
    let cont :=
      match room1.groups shooter with
      | none => !potted_non8.isEmpty
      | some g => potted_non8.any (fun n => (groupBalls g).contains n)
    if cont then
      { room1 with
        msg := room.names shooter ++ " zsebelt → újra ő jön."
        turn := some shooter }
    else
      { room1 with
        turn := some opponent
        msg := "Nem esett saját → " ++ room.names opponent ++ " jön." }

/-- The referee `evaluate_shot(room, shooter, shot)` (lines 130-234).
`none` models the Python `KeyError` raised by `balls["0"]["alive"] = True`
when the cue ball was potted but the effective ball table has no entry for
it; every other path returns the updated room. -/
def evaluate_shot (room : Room) (shooter : PlayerId) (shot : Shot) : Option Room :=
  let opponent := opponentOf room shooter
  let potted := shot.potted
  let balls0 := reportedBalls room shot
  if potted.contains 0 && !containsKey 0 balls0 then
    none
  else
    let balls := if potted.contains 0 then setAlive 0 balls0 else balls0
    let foul := shot_foul (room.groups shooter) shot
    if potted.contains 8 then
      -- eight-ball short-circuit (lines 174-193)
      let lost :=
        match room.groups shooter with
        | none => true
        | some g => group_alive_left g balls || foul
      if lost then
        some { room with
          winner := some opponent
          msg := room.names shooter ++ " szabálytalanul zsebelte a 8-ast → "
                   ++ room.names opponent ++ " nyert!"
          turn := none
          balls := balls }
      else
        some { room with
          winner := some shooter
          msg := "8-as szabályosan zsebelve → " ++ room.names shooter ++ " nyert!"
          turn := none
          balls := balls }
    else
      some { (resolve_shot_rest room shooter opponent shot) with balls := balls }

/-- Placement validity `valid_cue_place(x, y, balls)` (lines 116-128): the
target must keep the
whole ball inside the playable interior, and must not overlap (within one
pixel of) any other currently-alive ball. -/
def valid_cue_place (x y : Rat) (balls : BallTable) : Bool :=
  let minx := TABLE_X + RADIUS
  let maxx := TABLE_X + INNER_W - RADIUS
  let miny := TABLE_Y + RADIUS
  let maxy := TABLE_Y + INNER_H - RADIUS
  (decide (minx ≤ x) && decide (x ≤ maxx) && decide (miny ≤ y) && decide (y ≤ maxy)) &&
    balls.all (fun kb =>
      kb.1 == 0 || !kb.2.alive ||
        decide ((2 * RADIUS + 1) ^ 2 ≤ (kb.2.x - x) ^ 2 + (kb.2.y - y) ^ 2))

/-- Outcome of the `place_cue` handler: either the new state is broadcast to
the room, or a `place_cue` error is sent to one connection only. -/
inductive PlaceOutcome where
  | broadcastState
  | rejectedTo (uid : PlayerId)
deriving DecidableEq, Repr

/-- The `place_cue` branch of `handle_game_msg` (lines 351-363), for a sender
who is a player of the room. -/
def handle_place_cue (room : Room) (sender : PlayerId) (x y : Rat) : Room × PlaceOutcome :=
  if room.ball_in_hand sender && valid_cue_place x y room.balls then
    ({ room with
        balls := dictInsert 0 ⟨x, y, true⟩ room.balls
        ball_in_hand := fun p => if p = sender then false else room.ball_in_hand p
        msg := room.names sender ++ " lerakta a fehéret (ball-in-hand)." },
     PlaceOutcome.broadcastState)
  else
    (room, PlaceOutcome.rejectedTo sender)

/-- The acceptance guard of the `shot_end` branch (line 367): only the
current turn holder may shoot, and only while there is no winner. -/
def shot_accepted (room : Room) (sender : PlayerId) : Bool :=
  room.turn == some sender && room.winner.isNone

/-- The `shot_end` branch of `handle_game_msg` (lines 365-379), for a sender
who is a player of the room: a rejected shot returns the room unchanged
(and broadcasts nothing); an accepted shot bumps the sender's shot counter
and runs `evaluate_shot`. -/
def handle_shot_end (room : Room) (sender : PlayerId) (shot : Shot) : Option Room :=
  if !shot_accepted room sender then
    some room
  else
    evaluate_shot
      { room with shots := fun p => if p = sender then room.shots p + 1 else room.shots p }
      sender shot

/-- What `ws_main` does with one decoded inbound message (lines 409-430),
as a function of whether this connection already belongs to a session. -/
inductive WsAction where
  | runHello
  | sendPresence
  | noHelloError
  | runInvite
  | runAcceptInvite
  | runDeclineInvite
  | runGameMsg
  | noop
deriving DecidableEq, Repr

/-- The dispatch chain of `ws_main` (lines 415-430). -/
def ws_dispatch (hasSession : Bool) (t : String) : WsAction :=
  if t = "hello" then WsAction.runHello
  else if t = "get_users" then WsAction.sendPresence
  else if !hasSession then WsAction.noHelloError
  else if t = "invite" then WsAction.runInvite
  else if t = "accept_invite" then WsAction.runAcceptInvite
  else if t = "decline_invite" then WsAction.runDeclineInvite
  else if t = "place_cue" || t = "shot_end" || t = "leave_room" then WsAction.runGameMsg
  else WsAction.noop

inductive InviteStatus where
  | sent
  | accepted
  | declined
  | expired
deriving DecidableEq, Repr

/-- One invite record `{from, to, created, expires, status}`. -/
structure Invite where
  fromId : PlayerId
  toId : PlayerId
  created : Rat
  expires : Rat
  status : InviteStatus
deriving DecidableEq, Repr

/-- The `invites` dict: invite id to record, unique keys. -/
abbrev InviteTable := List (String × Invite)

/-- The invite-expiry half of `cleanup()` (lines 42-52) at time `tnow`: every
SENT invite whose expiry has passed is marked expired, notified and popped
from the dict (the mark is unobservable after the pop, so the net effect on
the table is removal). -/
def cleanup_invites (tnow : Rat) (invs : InviteTable) : InviteTable :=
  invs.filter (fun p => !(p.2.status == InviteStatus.sent && decide (p.2.expires < tnow)))

/-- Outcome of `handle_invite_answer` as seen by the responder. -/
inductive InviteAnswer where
  | errorInviteMissing
  | errorNotReceiver
  | resolvedAccept
  | resolvedDecline
deriving DecidableEq, Repr

/-- The guard chain of `handle_invite_answer` (lines 301-317). -/
def handle_invite_answer (invs : InviteTable) (invId : String) (who : PlayerId)
    (accept : Bool) : InviteAnswer :=
  match invs.lookup invId with
  | none => InviteAnswer.errorInviteMissing
  | some inv =>
    if inv.status != InviteStatus.sent then InviteAnswer.errorInviteMissing
    else if inv.toId != who then InviteAnswer.errorNotReceiver
    else if accept then InviteAnswer.resolvedAccept
    else InviteAnswer.resolvedDecline

/-- The 15 rack slots generated by `rack_positions()` in generation order,
identified by their grid coordinates `(r, i)`: row `r = 0..4`, ball
`i = 0..r` within the row.  The geometric position of slot `(r, i)` is
`x = start_x + dx*r`, `y = TABLE_Y + INNER_H/2 - r*RADIUS + i*2*RADIUS`
with `dx = 2*RADIUS*cos(30 deg) > 0`, so distinct `(r, i)` are distinct
points and the slot pair identifies the position. -/
def rack_slots : List (Nat × Nat) :=
  (List.range 5).flatMap (fun r => (List.range (r + 1)).map (fun i => (r, i)))

/-- The slot at the geometric center of the rack: `x` midway between the
apex row `r = 0` and the back row `r = 4`, and `y` on the rack's center
line `TABLE_Y + INNER_H/2` (for `(2, 1)`: `y = 360 - 2*14 + 1*28 = 360`). -/
def center_slot : Nat × Nat := (2, 1)

/-- The forced swap of `make_new_balls` (lines 105-107):
`i8 = nums.index(8); mid = len(nums)//2; nums[i8], nums[mid] = nums[mid], nums[i8]`. -/
def swap8 (nums : List Int) : List Int :=
  if nums.contains 8 then
    let i8 := nums.findIdx (fun n => n == 8)
    let mid := nums.length / 2
    (nums.set i8 (nums.getD mid 0)).set mid (nums.getD i8 0)
  else nums

/-- The rack-placement loop of `make_new_balls` (lines 103-110): the two
`random.shuffle` outcomes are parameters — `spots` is the shuffled slot
list produced by `rack_positions()` and `nums` the shuffled `[1..15]`.
Ball `nums[i]` (after the forced swap of ball 8) is placed on slot
`spots[i]`. -/
def rack_assignment (spots : List (Nat × Nat)) (nums : List Int) :
    List (Int × (Nat × Nat)) :=
  (swap8 nums).zip (spots.take 15)

/-- The unshuffled ball numbers `[1, 2, ..., 15]`. -/
def identNums : List Int :=
  (List.range 15).map (fun k => (k : Int) + 1)

/-- Rendering of the spec sentence for the eight-ball case, written from the
spec's words for comparison with the code: the shooter wins iff they have an
assigned group, every ball of that group is no longer alive in the reported
final ball table, and no foul was flagged on this shot. -/
def specEightShooterWins (room : Room) (shooter : PlayerId) (shot : Shot) : Bool :=
  match room.groups shooter with
  | none => false
  | some g =>
    ((reportedBalls room shot).all (fun kb => !(groupBalls g).contains kb.1 || !kb.2.alive)) &&
      !shot_foul (room.groups shooter) shot

/-- A full ball table with every ball alive (concrete test state). -/
def fullBalls : BallTable :=
  [(0, ⟨100, 200, true⟩), (1, ⟨130, 200, true⟩), (2, ⟨160, 200, true⟩),
   (3, ⟨190, 200, true⟩), (4, ⟨220, 200, true⟩), (5, ⟨250, 200, true⟩),
   (6, ⟨280, 200, true⟩), (7, ⟨310, 200, true⟩), (8, ⟨340, 200, true⟩),
   (9, ⟨370, 200, true⟩), (10, ⟨400, 200, true⟩), (11, ⟨430, 200, true⟩),
   (12, ⟨460, 200, true⟩), (13, ⟨490, 200, true⟩), (14, ⟨520, 200, true⟩),
   (15, ⟨550, 200, true⟩)]

/-- A ball table in which every SOLID ball (1-7) is dead and everything else
is alive (concrete test state). -/
def solidsClearedBalls : BallTable :=
  [(0, ⟨100, 200, true⟩), (1, ⟨130, 200, false⟩), (2, ⟨160, 200, false⟩),
   (3, ⟨190, 200, false⟩), (4, ⟨220, 200, false⟩), (5, ⟨250, 200, false⟩),
   (6, ⟨280, 200, false⟩), (7, ⟨310, 200, false⟩), (8, ⟨340, 200, true⟩),
   (9, ⟨370, 200, true⟩), (10, ⟨400, 200, true⟩), (11, ⟨430, 200, true⟩),
   (12, ⟨460, 200, true⟩), (13, ⟨490, 200, true⟩), (14, ⟨520, 200, true⟩),
   (15, ⟨550, 200, true⟩)]

/-- A two-player room in the unassigned-groups opening state. -/
def lobbyRoom : Room :=
  { players := ("a", "b")
    names := fun _ => "N"
    balls := fullBalls
    turn := some "a"
    groups := fun _ => none
    ball_in_hand := fun _ => false
    winner := none
    shots := fun _ => 0
    msg := "" }

/-- A room in which shooter "a" is on the 8 (assigned SOLID, all solids
dead). -/
def c1room : Room :=
  { lobbyRoom with
    balls := solidsClearedBalls
    groups := fun p =>
      if p = "a" then some Group.SOLID else if p = "b" then some Group.STRIPE else none }

/-- A shot whose only irregularity is first contact on the 8-ball. -/
def c1shot : Shot :=
  { first_hit := some 8, any_rail := true, potted := [], balls := [] }

/-- A legal 8-ball pot by a shooter who has cleared their group. -/
def c2shot : Shot :=
  { first_hit := some 3, any_rail := true, potted := [8], balls := [] }

/-- A shot that scratches and pots the 8-ball at once. -/
def c3shot : Shot :=
  { first_hit := some 1, any_rail := true, potted := [0, 8], balls := [] }

/-- A scratch that also pots a solid, no 8-ball involved. -/
def c3ashot : Shot :=
  { first_hit := some 3, any_rail := true, potted := [0, 3], balls := [] }

/-- A clean shot potting only solids. -/
def c5shotSolid : Shot :=
  { first_hit := some 3, any_rail := true, potted := [3, 5], balls := [] }

/-- A clean shot potting only stripes. -/
def c5shotStripe : Shot :=
  { first_hit := some 9, any_rail := true, potted := [9], balls := [] }

/-- A clean shot potting one ball of each range. -/
def c5shotMixed : Shot :=
  { first_hit := some 3, any_rail := true, potted := [3, 9], balls := [] }

/-- A room whose match already has a winner (terminal state). -/
def c7roomDone : Room :=
  { lobbyRoom with winner := some "a", turn := none }

/-- A room granting player "a" ball-in-hand. -/
def c6room : Room :=
  { lobbyRoom with ball_in_hand := fun p => p == "a" }

/-- A reported final ball table that has no entry for the cue ball although
the cue ball is among the potted balls. -/
def c10shot : Shot :=
  { first_hit := some 1, any_rail := true, potted := [0], balls := [(1, ⟨100, 100, true⟩)] }

/-- A concrete SENT invite expiring at t = 10. -/
def c9inv : Invite :=
  { fromId := "a", toId := "b", created := 0, expires := 10, status := InviteStatus.sent }

/-- A concrete invite table holding only `c9inv`. -/
def c9invs : InviteTable := [("i", c9inv)]

theorem group_alive_left_setAlive_zero (g : Group) (t : BallTable) :
    group_alive_left g (setAlive 0 t) = group_alive_left g t := by
  unfold group_alive_left setAlive
  induction t with
  | nil => rfl
  | cons kb tl ih =>
    simp only [List.map_cons, List.any_cons, ih]
    congr 1
    obtain ⟨k, b⟩ := kb
    by_cases h : k = 0
    · subst h
      cases g <;> simp [groupBalls, SOLIDS, STRIPES]
    · have hb : (k == (0 : Int)) = false := by simpa using h
      simp [hb]

theorem group_alive_left_eq_not_all (g : Group) (t : BallTable) :
    group_alive_left g t =
      !(t.all fun kb => !(groupBalls g).contains kb.1 || !kb.2.alive) := by
  unfold group_alive_left
  induction t with
  | nil => rfl
  | cons kb tl ih =>
    simp only [List.any_cons, List.all_cons, ih]
    cases kb.2.alive <;> cases (groupBalls g).contains kb.1 <;>
      cases (tl.all fun kb => !(groupBalls g).contains kb.1 || !kb.2.alive) <;> rfl

/-- C2: for every shot whose potted set contains the 8-ball (and whose
effective ball table can represent a scratch, if one co-occurred), the match
ends immediately: the turn holder becomes none, and the winner is the
shooter exactly when the spec's win condition (assigned group, group fully
dead in the reported final table, no foul this shot) holds, and the opponent
otherwise. -/
theorem c2_eight_ball_ends_match (room : Room) (shooter : PlayerId) (shot : Shot)
    (h8 : shot.potted.contains 8 = true)
    (h0 : shot.potted.contains 0 = true → containsKey 0 (reportedBalls room shot) = true) :
    (evaluate_shot room shooter shot).map (fun r => (r.winner, r.turn)) =
      some (some (if specEightShooterWins room shooter shot then shooter
                  else opponentOf room shooter), none) := by
  unfold evaluate_shot
  have hguard : (shot.potted.contains 0 && !containsKey 0 (reportedBalls room shot)) = false := by
    cases hc : shot.potted.contains 0 with
    | false => rfl
    | true => simp [h0 hc]
  simp only [hguard, Bool.false_eq_true, if_false, h8, if_true]
  have hgal : ∀ gg : Group,
      group_alive_left gg
        (if shot.potted.contains 0 then setAlive 0 (reportedBalls room shot)
         else reportedBalls room shot) =
      group_alive_left gg (reportedBalls room shot) := by
    intro gg
    cases shot.potted.contains 0 <;> simp [group_alive_left_setAlive_zero]
  cases hg : room.groups shooter with
  | none => simp [specEightShooterWins, hg]
  | some g =>
    simp only [specEightShooterWins, hg, hgal]
    rw [group_alive_left_eq_not_all]
    cases hall : ((reportedBalls room shot).all
        fun kb => !(groupBalls g).contains kb.1 || !kb.2.alive) <;>
      cases hf : shot_foul (room.groups shooter) shot <;>
        simp [hg] at hf ⊢ <;> simp [hf]

/-- C2 witness: shooter "a" (SOLID, solids cleared) legally pots the 8
and is recorded as winner with the turn holder cleared. -/
theorem c2_witness :
    (evaluate_shot c1room "a" c2shot).map (fun r => (r.winner, r.turn)) =
      some (some "a", none) := by
  have h := c2_eight_ball_ends_match c1room "a" c2shot (by decide) (by decide)
  exact h.trans (by decide)

/-- C1 counterexample: shooter "a" has an assigned group (SOLID), every ball
of that group is dead in the effective ball table, the first contact is the
8-ball and no other foul condition holds, yet `evaluate_shot` still flags a
foul (observable as ball-in-hand granted to the opponent). -/
theorem c1_counterexample :
    c1room.groups "a" = some Group.SOLID ∧
    c1shot.first_hit = some 8 ∧
    group_alive_left Group.SOLID (reportedBalls c1room c1shot) = false ∧
    c1shot.potted.contains 0 = false ∧
    c1shot.any_rail = true ∧
    shot_foul (c1room.groups "a") c1shot = true ∧
    (evaluate_shot c1room "a" c1shot).map (fun r => r.ball_in_hand "b") = some true := by
  decide

/-- C1 (amended): for every shot by a shooter with an assigned group, a
first contact on the 8-ball always flags a foul, regardless of whether any
ball of the shooter's group is still alive. -/
theorem c1_amended_eight_contact_always_foul (room : Room) (shooter : PlayerId) (shot : Shot)
    (g : Group) (hg : room.groups shooter = some g) (hfh : shot.first_hit = some 8) :
    shot_foul (room.groups shooter) shot = true := by
  cases g <;> simp [shot_foul, shot_foul_reasons, hg, hfh]

/-- C1 witness: the amended statement at the concrete room and shot of the
counterexample. -/
theorem c1_witness : shot_foul (c1room.groups "a") c1shot = true :=
  c1_amended_eight_contact_always_foul c1room "a" c1shot Group.SOLID (by decide) (by decide)

/-- C10: when the client-reported final ball table is nonempty but has no
entry for the cue ball while the cue ball is among the potted balls,
`evaluate_shot` raises (modelled as `none`) instead of returning an updated
game state. -/
theorem c10_missing_cue_entry (room : Room) (shooter : PlayerId) (shot : Shot)
    (hne : shot.balls.isEmpty = false)
    (hkey : containsKey 0 shot.balls = false)
    (h0 : shot.potted.contains 0 = true) :
    evaluate_shot room shooter shot = none := by
  have hb : reportedBalls room shot = shot.balls := by
    unfold reportedBalls
    rw [hne]
    simp
  simp only [evaluate_shot, hb, h0, hkey, Bool.not_false, Bool.and_true, if_true]

/-- C10 witness: the concrete scratch report with no cue-ball entry makes
`evaluate_shot` raise. -/
theorem c10_witness : evaluate_shot lobbyRoom "a" c10shot = none :=
  c10_missing_cue_entry lobbyRoom "a" c10shot (by decide) (by decide) (by decide)

/-- C8 counterexample: a `get_users` message on a connection with no session
is answered with the presence snapshot, not with the `NoSessionYet`
(`no_hello`) error. -/
theorem c8_counterexample :
    ws_dispatch false "get_users" = WsAction.sendPresence ∧
    WsAction.sendPresence ≠ WsAction.noHelloError := by
  decide

/-- C8 (amended): for every inbound message kind other than `hello` and
`get_users`, a connection that has not completed a successful hello is
answered with the `NoSessionYet` (`no_hello`) error and the message is not
dispatched to any state-changing handler. -/
theorem c8_amended_no_hello (t : String) (h1 : t ≠ "hello") (h2 : t ≠ "get_users") :
    ws_dispatch false t = WsAction.noHelloError := by
  simp [ws_dispatch, h1, h2]

/-- C8 witness: a pre-hello `shot_end` is answered with the `no_hello`
error. -/
theorem c8_witness : ws_dispatch false "shot_end" = WsAction.noHelloError :=
  c8_amended_no_hello "shot_end" (by decide) (by decide)

/-- C4: with both random shuffles at the identity (slots in generation
order, ball numbers 1..15 in order), the forced swap of `make_new_balls`
leaves ball 8 on slot `(3, 1)` — the 8th slot of the shuffled slot list —
which is not the geometric center slot `(2, 1)` of the rack. -/
theorem c4_eight_not_on_center_slot :
    (rack_assignment rack_slots identNums).lookup 8 = some (3, 1) ∧
    ((3, 1) : Nat × Nat) ≠ center_slot := by
  decide


theorem opponentOf_ne (room : Room) (sender : PlayerId)
    (h : room.players.1 ≠ room.players.2) : sender ≠ opponentOf room sender := by
  unfold opponentOf
  split
  · rename_i h1
    intro he
    exact h (h1.trans he)
  · rename_i h1
    intro he
    exact h1 he.symm

theorem shot_foul_of_scratch (g : Option Group) (shot : Shot)
    (h0 : shot.potted.contains 0 = true) : shot_foul g shot = true := by
  unfold shot_foul shot_foul_reasons
  rw [h0]
  simp

theorem evaluate_scratch (room : Room) (sender : PlayerId) (shot : Shot)
    (h0 : shot.potted.contains 0 = true)
    (hkey : containsKey 0 (reportedBalls room shot) = true)
    (h8 : shot.potted.contains 8 = false) :
    (evaluate_shot room sender shot).map
      (fun r => (r.ball_in_hand (opponentOf room sender), r.turn)) =
      some (true, some (opponentOf room sender)) := by
  have hfoul : shot_foul (room.groups sender) shot = true :=
    shot_foul_of_scratch _ shot h0
  have hguard : (shot.potted.contains 0 && !containsKey 0 (reportedBalls room shot)) = false := by
    rw [h0, hkey]
    rfl
  simp only [evaluate_shot, resolve_shot_rest, hguard, Bool.false_eq_true, if_false, h8,
    hfoul, if_true, Option.map_some']

/-- C3 counterexample: an accepted shot that pots both the cue ball and the
8-ball: the opponent is NOT granted ball-in-hand and the turn holder becomes
none rather than passing to the opponent. -/
theorem c3_counterexample :
    shot_accepted lobbyRoom "a" = true ∧
    c3shot.potted.contains 0 = true ∧
    (handle_shot_end lobbyRoom "a" c3shot).map
      (fun r => (r.ball_in_hand "b", r.turn)) = some (false, none) := by
  decide

/-- C3 (amended): for every accepted shot whose potted set contains the cue
ball, a foul is flagged; and whenever the 8-ball was not also potted, the
opponent is granted ball-in-hand and the turn passes to the opponent. -/
theorem c3_amended_scratch (room : Room) (sender : PlayerId) (shot : Shot)
    (hacc : shot_accepted room sender = true)
    (h0 : shot.potted.contains 0 = true)
    (hkey : containsKey 0 (reportedBalls room shot) = true) :
    shot_foul (room.groups sender) shot = true ∧
    (shot.potted.contains 8 = false →
      (handle_shot_end room sender shot).map
        (fun r => (r.ball_in_hand (opponentOf room sender), r.turn)) =
        some (true, some (opponentOf room sender))) := by
  refine ⟨shot_foul_of_scratch _ shot h0, fun h8 => ?_⟩
  have hacc' : (!shot_accepted room sender) = false := by rw [hacc]; rfl
  simp only [handle_shot_end, hacc', Bool.false_eq_true, if_false]
  exact evaluate_scratch
    { room with shots := fun p => if p = sender then room.shots p + 1 else room.shots p }
    sender shot h0 hkey h8

/-- C3 witness: a concrete accepted scratch (potting {0, 3}) flags a foul,
grants ball-in-hand to the opponent and passes the turn. -/
theorem c3_witness :
    shot_foul (lobbyRoom.groups "a") c3ashot = true ∧
    (handle_shot_end lobbyRoom "a" c3ashot).map
      (fun r => (r.ball_in_hand (opponentOf lobbyRoom "a"), r.turn)) =
      some (true, some (opponentOf lobbyRoom "a")) := by
  have h := c3_amended_scratch lobbyRoom "a" c3ashot (by decide) (by decide) (by decide)
  exact ⟨h.1, h.2 (by decide)⟩

theorem filtered_group_isEmpty_iff (G : List Int)
    (hG : ∀ n ∈ G, (n != 0 && n != 8) = true) (potted : List Int) :
    ((potted.filter (fun n => n != 0 && n != 8)).filter
      (fun n => G.contains n)).isEmpty = true ↔ ¬ ∃ n ∈ potted, n ∈ G := by
  rw [List.isEmpty_iff, List.filter_eq_nil_iff]
  constructor
  · rintro h ⟨n, hn, hmem⟩
    exact h n (List.mem_filter.mpr ⟨hn, hG n hmem⟩) (List.elem_iff.mpr hmem)
  · intro h a ha hc
    exact h ⟨a, (List.mem_filter.mp ha).1, List.elem_iff.mp hc⟩

/-- C5: while both players are unassigned and the 8-ball was not potted, a
shot potting only SOLID-range balls assigns SOLID to the shooter and STRIPE
to the opponent; only STRIPE-range the reverse; both ranges or neither
leaves both players unassigned. -/
theorem c5_group_assignment (room : Room) (sender : PlayerId) (shot : Shot)
    (hne : room.players.1 ≠ room.players.2)
    (hgs : room.groups sender = none)
    (hgo : room.groups (opponentOf room sender) = none)
    (h8 : shot.potted.contains 8 = false)
    (h0 : shot.potted.contains 0 = true → containsKey 0 (reportedBalls room shot) = true) :
    (((∃ n ∈ shot.potted, n ∈ SOLIDS) ∧ ¬(∃ n ∈ shot.potted, n ∈ STRIPES)) →
       (evaluate_shot room sender shot).map
         (fun r => (r.groups sender, r.groups (opponentOf room sender))) =
         some (some Group.SOLID, some Group.STRIPE)) ∧
    (((∃ n ∈ shot.potted, n ∈ STRIPES) ∧ ¬(∃ n ∈ shot.potted, n ∈ SOLIDS)) →
       (evaluate_shot room sender shot).map
         (fun r => (r.groups sender, r.groups (opponentOf room sender))) =
         some (some Group.STRIPE, some Group.SOLID)) ∧
    ((((∃ n ∈ shot.potted, n ∈ SOLIDS) ∧ (∃ n ∈ shot.potted, n ∈ STRIPES)) ∨
      (¬(∃ n ∈ shot.potted, n ∈ SOLIDS) ∧ ¬(∃ n ∈ shot.potted, n ∈ STRIPES))) →
       (evaluate_shot room sender shot).map
         (fun r => (r.groups sender, r.groups (opponentOf room sender))) =
         some (none, none)) := by
  have hso : sender ≠ opponentOf room sender := opponentOf_ne room sender hne
  have hguard : (shot.potted.contains 0 && !containsKey 0 (reportedBalls room shot)) = false := by
    cases hc : shot.potted.contains 0 with
    | false => rfl
    | true => simp [h0 hc]
  have hsolNil := filtered_group_isEmpty_iff SOLIDS (by decide) shot.potted
  have hstrNil := filtered_group_isEmpty_iff STRIPES (by decide) shot.potted
  have hassign : ((room.groups sender).isNone &&
      (room.groups (opponentOf room sender)).isNone) = true := by
    rw [hgs, hgo]
    rfl
  refine ⟨fun hcase => ?_, fun hcase => ?_, fun hcase => ?_⟩
  · obtain ⟨hS, hNS⟩ := hcase
    have h1 : ((shot.potted.filter (fun n => n != 0 && n != 8)).filter
        (fun n => SOLIDS.contains n)).isEmpty = false := by
      cases hb : ((shot.potted.filter (fun n => n != 0 && n != 8)).filter
          (fun n => SOLIDS.contains n)).isEmpty with
      | false => rfl
      | true => exact absurd (hsolNil.mp hb) (not_not_intro hS)
    have h2 : ((shot.potted.filter (fun n => n != 0 && n != 8)).filter
        (fun n => STRIPES.contains n)).isEmpty = true := hstrNil.mpr hNS
    simp only [evaluate_shot, resolve_shot_rest, hguard, Bool.false_eq_true, if_false, h8,
      hassign, if_true, h1, h2, Bool.not_false, Bool.and_true, Option.map_some']
    split <;> (try split) <;> simp [hso]
  · obtain ⟨hS, hNS⟩ := hcase
    have h1 : ((shot.potted.filter (fun n => n != 0 && n != 8)).filter
        (fun n => STRIPES.contains n)).isEmpty = false := by
      cases hb : ((shot.potted.filter (fun n => n != 0 && n != 8)).filter
          (fun n => STRIPES.contains n)).isEmpty with
      | false => rfl
      | true => exact absurd (hstrNil.mp hb) (not_not_intro hS)
    have h2 : ((shot.potted.filter (fun n => n != 0 && n != 8)).filter
        (fun n => SOLIDS.contains n)).isEmpty = true := hsolNil.mpr hNS
    simp only [evaluate_shot, resolve_shot_rest, hguard, Bool.false_eq_true, if_false, h8,
      hassign, if_true, h1, h2, Bool.not_false, Bool.not_true, Bool.and_true, Bool.false_and,
      Bool.and_false, Option.map_some']
    split <;> (try split) <;> simp [hso]
  · have hgroups : ∀ r' : Room, r'.groups = room.groups →
        ((r'.groups sender, r'.groups (opponentOf room sender)) :
          Option Group × Option Group) = (none, none) := by
      intro r' hr
      rw [hr, hgs, hgo]
    rcases hcase with ⟨hS, hT⟩ | ⟨hNS, hNT⟩
    · have h1 : ((shot.potted.filter (fun n => n != 0 && n != 8)).filter
          (fun n => SOLIDS.contains n)).isEmpty = false := by
        cases hb : ((shot.potted.filter (fun n => n != 0 && n != 8)).filter
            (fun n => SOLIDS.contains n)).isEmpty with
        | false => rfl
        | true => exact absurd (hsolNil.mp hb) (not_not_intro hS)
      have h2 : ((shot.potted.filter (fun n => n != 0 && n != 8)).filter
          (fun n => STRIPES.contains n)).isEmpty = false := by
        cases hb : ((shot.potted.filter (fun n => n != 0 && n != 8)).filter
            (fun n => STRIPES.contains n)).isEmpty with
        | false => rfl
        | true => exact absurd (hstrNil.mp hb) (not_not_intro hT)
      simp only [evaluate_shot, resolve_shot_rest, hguard, Bool.false_eq_true, if_false, h8,
        hassign, if_true, h1, h2, Bool.not_false, Bool.and_false, Bool.false_and,
        Option.map_some']
      split <;> (try split) <;> (try split) <;> simp [hgs, hgo]
    · have h1 : ((shot.potted.filter (fun n => n != 0 && n != 8)).filter
          (fun n => SOLIDS.contains n)).isEmpty = true := hsolNil.mpr hNS
      have h2 : ((shot.potted.filter (fun n => n != 0 && n != 8)).filter
          (fun n => STRIPES.contains n)).isEmpty = true := hstrNil.mpr hNT
      simp only [evaluate_shot, resolve_shot_rest, hguard, Bool.false_eq_true, if_false, h8,
        hassign, if_true, h1, h2, Bool.not_true, Bool.false_and, Option.map_some']
      split <;> (try split) <;> (try split) <;> simp [hgs, hgo]

/-- C5 witness: concrete shots for the three assignment outcomes (only
solids, only stripes, mixed). -/
theorem c5_witness :
    (evaluate_shot lobbyRoom "a" c5shotSolid).map
      (fun r => (r.groups "a", r.groups (opponentOf lobbyRoom "a"))) =
      some (some Group.SOLID, some Group.STRIPE) ∧
    (evaluate_shot lobbyRoom "a" c5shotStripe).map
      (fun r => (r.groups "a", r.groups (opponentOf lobbyRoom "a"))) =
      some (some Group.STRIPE, some Group.SOLID) ∧
    (evaluate_shot lobbyRoom "a" c5shotMixed).map
      (fun r => (r.groups "a", r.groups (opponentOf lobbyRoom "a"))) =
      some (none, none) := by
  refine ⟨?_, ?_, ?_⟩
  · exact (c5_group_assignment lobbyRoom "a" c5shotSolid (by decide) (by decide) (by decide)
      (by decide) (by decide)).1 (by decide)
  · exact (c5_group_assignment lobbyRoom "a" c5shotStripe (by decide) (by decide) (by decide)
      (by decide) (by decide)).2.1 (by decide)
  · exact (c5_group_assignment lobbyRoom "a" c5shotMixed (by decide) (by decide) (by decide)
      (by decide) (by decide)).2.2 (by decide)

theorem lookupBall_map_update (k : Int) (b : Ball) (t : BallTable)
    (h : containsKey k t = true) :
    lookupBall k (t.map (fun kb => if kb.1 == k then (k, b) else kb)) = some b := by
  induction t with
  | nil => simp [containsKey] at h
  | cons kb tl ih =>
    simp only [List.map_cons]
    by_cases hk : (kb.1 == k) = true
    · rw [if_pos hk]
      simp [lookupBall]
    · have hk' : (kb.1 == k) = false := by simpa using hk
      rw [if_neg (by simp [hk'])]
      have h' : containsKey k tl = true := by
        unfold containsKey at h
        rw [List.any_cons, hk', Bool.false_or] at h
        exact h
      rw [lookupBall, hk']
      simp only [Bool.false_eq_true, if_false]
      exact ih h'

theorem lookupBall_append_self (k : Int) (b : Ball) (t : BallTable)
    (h : containsKey k t = false) :
    lookupBall k (t ++ [(k, b)]) = some b := by
  induction t with
  | nil => simp [lookupBall]
  | cons kb tl ih =>
    unfold containsKey at h
    rw [List.any_cons] at h
    obtain ⟨h1, h2⟩ := Bool.or_eq_false_iff.mp h
    simp [lookupBall, h1, ih h2]

theorem lookupBall_dictInsert (k : Int) (b : Ball) (t : BallTable) :
    lookupBall k (dictInsert k b t) = some b := by
  unfold dictInsert
  by_cases h : containsKey k t = true
  · rw [if_pos h]
    exact lookupBall_map_update k b t h
  · have h' : containsKey k t = false := by simpa using h
    rw [h']
    simp only [Bool.false_eq_true, if_false]
    exact lookupBall_append_self k b t h'

theorem valid_cue_place_iff (x y : Rat) (balls : BallTable) :
    valid_cue_place x y balls = true ↔
      ((TABLE_X + RADIUS ≤ x ∧ x ≤ TABLE_X + INNER_W - RADIUS ∧
        TABLE_Y + RADIUS ≤ y ∧ y ≤ TABLE_Y + INNER_H - RADIUS) ∧
       ∀ kb ∈ balls, kb.1 ≠ 0 → kb.2.alive = true →
         (2 * RADIUS + 1) ^ 2 ≤ (kb.2.x - x) ^ 2 + (kb.2.y - y) ^ 2) := by
  unfold valid_cue_place
  simp only [Bool.and_eq_true, decide_eq_true_eq, List.all_eq_true, Bool.or_eq_true,
    beq_iff_eq, Bool.not_eq_true']
  constructor
  · rintro ⟨⟨⟨⟨h1, h2⟩, h3⟩, h4⟩, hall⟩
    refine ⟨⟨h1, h2, h3, h4⟩, fun kb hkb hne ha => ?_⟩
    rcases hall kb hkb with (h | h) | h
    · exact absurd h hne
    · rw [h] at ha
      exact absurd ha Bool.false_ne_true
    · exact h
  · rintro ⟨⟨h1, h2, h3, h4⟩, hall⟩
    refine ⟨⟨⟨⟨h1, h2⟩, h3⟩, h4⟩, fun kb hkb => ?_⟩
    by_cases hk : kb.1 = 0
    · exact Or.inl (Or.inl hk)
    · by_cases ha : kb.2.alive = true
      · exact Or.inr (hall kb hkb hk ha)
      · exact Or.inl (Or.inr (by simpa using ha))

/-- C6: `place_cue` succeeds iff the sender holds ball-in-hand, the point
keeps the ball inside the playable interior and the point is at least one
pixel beyond two ball-radii from every other alive ball; on success the cue
ball is placed there alive and the sender's ball-in-hand flag is cleared;
on failure the error goes to the requester only and the room state is
unchanged. -/
theorem c6_place_cue (room : Room) (sender : PlayerId) (x y : Rat) :
    ((handle_place_cue room sender x y).2 = PlaceOutcome.broadcastState ↔
       (room.ball_in_hand sender = true ∧
        (TABLE_X + RADIUS ≤ x ∧ x ≤ TABLE_X + INNER_W - RADIUS ∧
         TABLE_Y + RADIUS ≤ y ∧ y ≤ TABLE_Y + INNER_H - RADIUS) ∧
        ∀ kb ∈ room.balls, kb.1 ≠ 0 → kb.2.alive = true →
          (2 * RADIUS + 1) ^ 2 ≤ (kb.2.x - x) ^ 2 + (kb.2.y - y) ^ 2)) ∧
    ((handle_place_cue room sender x y).2 = PlaceOutcome.broadcastState →
       lookupBall 0 (handle_place_cue room sender x y).1.balls = some ⟨x, y, true⟩ ∧
       (handle_place_cue room sender x y).1.ball_in_hand sender = false) ∧
    ((handle_place_cue room sender x y).2 ≠ PlaceOutcome.broadcastState →
       (handle_place_cue room sender x y).1 = room ∧
       (handle_place_cue room sender x y).2 = PlaceOutcome.rejectedTo sender) := by
  unfold handle_place_cue
  split
  · rename_i h
    rw [Bool.and_eq_true] at h
    obtain ⟨hb, hv⟩ := h
    refine ⟨iff_of_true rfl ⟨hb, (valid_cue_place_iff x y room.balls).mp hv⟩,
      fun _ => ⟨lookupBall_dictInsert 0 ⟨x, y, true⟩ room.balls, by simp⟩,
      fun hc => absurd rfl hc⟩
  · rename_i h
    have hc : (room.ball_in_hand sender && valid_cue_place x y room.balls) = false := by
      simpa using h
    refine ⟨iff_of_false (by simp) ?_, fun hbc => absurd hbc (by simp),
      fun _ => ⟨rfl, rfl⟩⟩
    rintro ⟨hb, hrest⟩
    have hv := (valid_cue_place_iff x y room.balls).mpr hrest
    rw [hb, hv] at hc
    simp at hc

/-- C6 witness: a concrete successful placement at (800, 400) and a
concrete rejected placement at (0, 400) that leaves the room untouched. -/
theorem c6_witness :
    (lookupBall 0 (handle_place_cue c6room "a" 800 400).1.balls = some ⟨800, 400, true⟩ ∧
     (handle_place_cue c6room "a" 800 400).1.ball_in_hand "a" = false) ∧
    ((handle_place_cue c6room "a" 0 400).1 = c6room ∧
     (handle_place_cue c6room "a" 0 400).2 = PlaceOutcome.rejectedTo "a") := by
  have hok : (handle_place_cue c6room "a" 800 400).2 = PlaceOutcome.broadcastState := by
    rw [(c6_place_cue c6room "a" 800 400).1]
    refine ⟨rfl, ?_, ?_⟩
    · norm_num [TABLE_X, TABLE_Y, RADIUS, INNER_W, INNER_H, LW, LH, MARGIN, CUSHION]
    · intro kb hkb hk ha
      have hballs : kb ∈ fullBalls := hkb
      unfold fullBalls at hballs
      simp only [List.mem_cons, List.not_mem_nil, or_false] at hballs
      rcases hballs with rfl|rfl|rfl|rfl|rfl|rfl|rfl|rfl|rfl|rfl|rfl|rfl|rfl|rfl|rfl|rfl <;>
        first
          | exact absurd rfl hk
          | norm_num [RADIUS]
  have hbad : (handle_place_cue c6room "a" 0 400).2 ≠ PlaceOutcome.broadcastState := by
    rw [Ne, (c6_place_cue c6room "a" 0 400).1]
    rintro ⟨-, ⟨h1, -⟩, -⟩
    norm_num [TABLE_X, RADIUS, MARGIN, CUSHION] at h1
  exact ⟨(c6_place_cue c6room "a" 800 400).2.1 hok,
    (c6_place_cue c6room "a" 0 400).2.2 hbad⟩

theorem resolve_shot_rest_winner (room : Room) (shooter opponent : PlayerId) (shot : Shot) :
    (resolve_shot_rest room shooter opponent shot).winner = room.winner := by
  simp only [resolve_shot_rest]
  split <;> (try split) <;> (try split) <;> (try split) <;> (try split) <;> (try split) <;>
    rfl

theorem evaluate_shot_winner_turn (room : Room) (sender : PlayerId) (shot : Shot)
    (hw : room.winner = none) :
    Option.all (fun r => !r.winner.isSome || r.turn.isNone)
      (evaluate_shot room sender shot) = true := by
  simp only [evaluate_shot]
  split
  · rfl
  · split
    · split <;> (try split) <;> rfl
    · simp only [Option.all, resolve_shot_rest_winner, hw, Option.isSome_none,
        Bool.not_false, Bool.true_or]

/-- C7: once a winner is recorded, the shot guard rejects every further
`shot_end` with no change to the room; and shot handling preserves the
invariant that a recorded winner implies the turn holder is none. -/
theorem c7_terminal_state (room : Room) (sender : PlayerId) (shot : Shot) :
    (room.winner.isSome = true →
       handle_shot_end room sender shot = some room ∧ shot_accepted room sender = false) ∧
    (room.winner = none →
       Option.all (fun r => !r.winner.isSome || r.turn.isNone)
         (handle_shot_end room sender shot) = true) := by
  constructor
  · intro hw
    have hacc : shot_accepted room sender = false := by
      unfold shot_accepted
      cases hww : room.winner with
      | none => rw [hww] at hw; simp at hw
      | some w => simp [hww]
    refine ⟨?_, hacc⟩
    unfold handle_shot_end
    rw [hacc]
    rfl
  · intro hw
    unfold handle_shot_end
    split
    · simp [hw]
    · exact evaluate_shot_winner_turn
        { room with shots := fun p => if p = sender then room.shots p + 1 else room.shots p }
        sender shot hw

/-- C7 witness: a finished room rejects a shot unchanged, and a live room's
shot handling preserves the winner-implies-no-turn invariant. -/
theorem c7_witness :
    (handle_shot_end c7roomDone "a" c5shotSolid = some c7roomDone ∧
     shot_accepted c7roomDone "a" = false) ∧
    Option.all (fun r => !r.winner.isSome || r.turn.isNone)
      (handle_shot_end lobbyRoom "a" c2shot) = true :=
  ⟨(c7_terminal_state c7roomDone "a" c5shotSolid).1 rfl,
   (c7_terminal_state lobbyRoom "a" c2shot).2 rfl⟩

theorem lookup_eq_none_of_not_mem_keys (k : String) (l : InviteTable)
    (h : k ∉ l.map Prod.fst) : l.lookup k = none := by
  induction l with
  | nil => rfl
  | cons p tl ih =>
    obtain ⟨a, v⟩ := p
    simp only [List.map_cons, List.mem_cons] at h
    push_neg at h
    obtain ⟨h1, h2⟩ := h
    have hb : (k == a) = false := by simpa using h1
    simp [List.lookup, hb, ih h2]

theorem lookup_filter_of_nodup (l : InviteTable) (p : String × Invite → Bool) (k : String)
    (hnd : (l.map Prod.fst).Nodup) :
    (l.filter p).lookup k = (l.lookup k).bind (fun v => if p (k, v) then some v else none) := by
  induction l with
  | nil => rfl
  | cons kv tl ih =>
    obtain ⟨a, v⟩ := kv
    simp only [List.map_cons, List.nodup_cons] at hnd
    obtain ⟨hna, hnd'⟩ := hnd
    by_cases hk : k = a
    · subst hk
      by_cases hp : p (k, v) = true
    
      · simp [List.filter_cons, hp, List.lookup_cons]
      · have ht2 : (tl.filter p).lookup k = none := by
          apply lookup_eq_none_of_not_mem_keys
          intro hm
          apply hna
          rcases List.mem_map.mp hm with ⟨q, hq, rfl⟩
          exact List.mem_map.mpr ⟨q, (List.mem_filter.mp hq).1, rfl⟩
        have hp' : p (k, v) = false := by simpa using hp
        simp [List.filter_cons, hp', List.lookup_cons, ht2]
    · have hb : (k == a) = false := by simpa using hk
      by_cases hp : p (a, v) = true
      · simp [List.filter_cons, hp, List.lookup_cons, hb, ih hnd']
      · have hp' : p (a, v) = false := by simpa using hp
        simp [List.filter_cons, hp', List.lookup_cons, hb, ih hnd']

/-- C9: after the invite-expiry cleanup runs at a time strictly later than
an invite's expiry timestamp, resolving that invite id fails with the
`InviteNotFound` (`invite_missing`) error, for every responder and for both
accept and decline. -/
theorem c9_expired_invite_not_resolvable (invs : InviteTable) (invId : String) (inv : Invite)
    (tnow : Rat) (who : PlayerId) (accept : Bool)
    (hnd : (invs.map Prod.fst).Nodup)
    (hl : invs.lookup invId = some inv)
    (hexp : inv.expires < tnow) :
    handle_invite_answer (cleanup_invites tnow invs) invId who accept =
      InviteAnswer.errorInviteMissing := by
  unfold handle_invite_answer cleanup_invites
  rw [lookup_filter_of_nodup _ _ _ hnd, hl]
  by_cases hs : inv.status = InviteStatus.sent
  · have h2 : ¬ tnow ≤ inv.expires := not_le.mpr hexp
    simp [hs, h2]
  · simp [hs]

/-- C9 witness: the concrete invite expiring at t = 10 is unresolvable at
t = 11 after cleanup. -/
theorem c9_witness :
    handle_invite_answer (cleanup_invites 11 c9invs) "i" "b" true =
      InviteAnswer.errorInviteMissing :=
  c9_expired_invite_not_resolvable c9invs "i" c9inv 11 "b" true (by decide) (by decide)
    (by norm_num [c9inv])

end PoolServer
